import Mathlib

/-!
Shallow embedding of the Ollama-Local-Chat-UI repository
(`app.py` conversation/session state model and `ollama_client.py`
inference client), together with theorems checking the specification's
claims against it.

Conventions of the embedding:
* Python floats are modelled as exact rationals (`ℚ`).
* `datetime.now()` values and generated message/conversation ids are
  environment inputs, passed as explicit parameters.
* Network transports are modelled as inductive outcome types: what the
  `requests` library would deliver to the code (a response, delivered
  stream lines, or a raised `requests.RequestException`).
* A Python exception that propagates out of a function is modelled as an
  explicit error value (`Except.error` / an `Option String` field), so
  "never raises to the caller" becomes a statement about that value.
-/

/-! ### Data model: messages and conversations (`app.py`) -/

/-- A chat message, as built by `add_message` in `app.py`
(`role`, `content`, `timestamp`, truncated-hash `id`). -/
structure Message where
  role : String
  content : String
  timestamp : Nat
  id : String
  deriving DecidableEq, Repr

/-- A conversation record, as stored in
`st.session_state.conversations[conv_id]`:
`messages`, `created_at`, `last_modified`, `title`. -/
structure Conversation where
  messages : List Message
  created_at : Nat
  last_modified : Nat
  title : String
  deriving DecidableEq, Repr

/-- `add_message(role, content, conversation_id)` from `app.py`
(lines 130-146), acting on the targeted conversation: appends the
message, bumps `last_modified`, and, when the appended message is the
conversation's only message, derives the title from the content
(first 50 characters plus `"..."` when longer than 50). -/
def add_message (role content : String) (now : Nat) (msgId : String)
    (conv : Conversation) : Conversation :=
  let message : Message := ⟨role, content, now, msgId⟩
  let msgs := conv.messages ++ [message]
  ⟨msgs, conv.created_at, now,
    if msgs.length = 1 then
      (if 50 < content.length then content.take 50 ++ "..." else content)
    else conv.title⟩

/-- The regenerate handler in `app.py` (line 508):
`current_conv['messages'] = messages[:i]` — keeps only the first `i`
messages of the conversation. -/
def regenerate_truncate (conv : Conversation) (i : Nat) : Conversation :=
  ⟨conv.messages.take i, conv.created_at, conv.last_modified, conv.title⟩

/-! ### Turn context construction (`app.py` lines 469-473, 534-535, 554-556, 585-586)

At the top of the chat tab the script binds
`messages = current_conv['messages']`, an alias of the live message
list.  When the user submits a prompt, `add_message("user", prompt)`
appends to that same list, so `messages` afterwards already contains the
just-appended user message.  The two code paths then build the model
input from that list. -/

/-- The conversation's message list as it stands after the chat-input
handler has run `add_message("user", prompt)` (`app.py` line 535) —
this is the list the local alias `messages` refers to when the context
is built. -/
def userTurnMessages (conv : Conversation) (now : Nat) (msgId : String)
    (prompt : String) : List Message :=
  (add_message "user" prompt now msgId conv).messages

/-- The `{"role": m["role"], "content": m["content"]}` mapping applied
to a history list (both context-construction sites). -/
def contextPairs (msgs : List Message) : List (String × String) :=
  msgs.map (fun m => (m.role, m.content))

/-- Single-model context construction (`app.py` lines 585-586):
optional system message, then every history message. -/
def messages_for_model_single (system_prompt : String)
    (msgs : List Message) : List (String × String) :=
  (if system_prompt = "" then [] else [("system", system_prompt)])
    ++ contextPairs msgs

/-- Compare-mode context construction (`app.py` lines 554-556):
optional system message, then every history message, then the user
prompt appended once more (line 556). -/
def messages_for_model_compare (system_prompt : String)
    (msgs : List Message) (prompt : String) : List (String × String) :=
  (if system_prompt = "" then [] else [("system", system_prompt)])
    ++ contextPairs msgs ++ [("user", prompt)]

/-! ### Conversation store operations (`app.py` lines 116-127, 221-230, 257-264, 278-283)

The store is `st.session_state.conversations`, a Python dict (insertion
ordered, unique keys), plus `st.session_state.active_conversation`.
We embed the dict as an insertion-ordered association list. -/

/-- A fresh conversation record as created by
`init_conversation_state` and the "New Conversation" button. -/
def emptyConv (now : Nat) : Conversation :=
  ⟨[], now, now, "New Chat"⟩

/-- The conversation store: the `conversations` dict (insertion-ordered
association list with unique keys) and the `active_conversation` id. -/
structure ConvStore where
  conversations : List (String × Conversation)
  active : String
  deriving DecidableEq, Repr

/-- The keys of the `conversations` dict, in insertion order
(`list(st.session_state.conversations.keys())`). -/
def keysOf (l : List (String × Conversation)) : List String :=
  l.map Prod.fst

/-- Python dict assignment `d[k] = v`: replaces the value in place when
the key is present, otherwise appends the new key at the end. -/
def dictInsert (k : String) (v : Conversation)
    (l : List (String × Conversation)) : List (String × Conversation) :=
  if k ∈ keysOf l then
    l.map (fun p => if p.1 = k then (k, v) else p)
  else l ++ [(k, v)]

/-- `init_conversation_state()` (`app.py` lines 116-127) starting from
an empty session: conversations `{'default': fresh}`, active pointer
`'default'`. -/
def init_conversation_state (now : Nat) : ConvStore :=
  ⟨[("default", emptyConv now)], "default"⟩

/-- The "New Conversation" button handler (`app.py` lines 221-230):
inserts a fresh conversation under a generated id and makes it active. -/
def create_conversation (newId : String) (now : Nat) (s : ConvStore) :
    ConvStore :=
  ⟨dictInsert newId (emptyConv now) s.conversations, newId⟩

/-- Selecting a conversation from the sidebar list (`app.py` line 263):
the button exists only for ids present in the store. -/
def select_conversation (i : String) (s : ConvStore) : ConvStore :=
  if i ∈ keysOf s.conversations then ⟨s.conversations, i⟩ else s

/-- The delete button handler (`app.py` lines 278-283): deletes only
when more than one conversation exists (the button is rendered only for
ids present in the store); when the deleted conversation was active,
reassigns the active pointer to the first remaining key
(`list(st.session_state.conversations.keys())[0]`). -/
def delete_conversation (i : String) (s : ConvStore) : ConvStore :=
  if 1 < s.conversations.length ∧ i ∈ keysOf s.conversations then
    ⟨s.conversations.filter (fun p => p.1 ≠ i),
      if i = s.active then
        (match s.conversations.filter (fun p => p.1 ≠ i) with
         | [] => s.active
         | c :: _ => c.1)
      else s.active⟩
  else s

/-- One user-triggered store operation reachable from the sidebar UI. -/
inductive StoreOp where
  | create (newId : String) (now : Nat)
  | select (i : String)
  | delete (i : String)
  deriving DecidableEq, Repr

/-- Apply one store operation. -/
def applyOp (op : StoreOp) (s : ConvStore) : ConvStore :=
  match op with
  | .create newId now => create_conversation newId now s
  | .select i => select_conversation i s
  | .delete i => delete_conversation i s

/-- Run a sequence of store operations, first one first. -/
def runOps (ops : List StoreOp) (s : ConvStore) : ConvStore :=
  ops.foldl (fun t op => applyOp op t) s

/-- The store invariant: the `conversations` dict is non-empty, the
active pointer names an existing conversation, and dict keys are
unique (as for any Python dict). -/
def StoreInv (s : ConvStore) : Prop :=
  s.conversations ≠ [] ∧ s.active ∈ keysOf s.conversations ∧
    (keysOf s.conversations).Nodup

/-! ### Inference client: `list_models` (`ollama_client.py` lines 16-24)

`list_models` wraps `GET /api/tags` in
`try: ... except requests.RequestException: return []`.
Network failures, non-2xx statuses (`raise_for_status`) and
undecodable JSON bodies (`requests.exceptions.JSONDecodeError`, a
`RequestException` subclass) all land in the handler.  A body that
decodes but has an unexpected shape does not: a non-dict top level makes
`.get` raise `AttributeError`, and an entry without a `"name"` key makes
`model["name"]` raise `KeyError`; neither is a `RequestException`, so
both propagate to the caller. -/

/-- One element of the decoded `models` array: a JSON object whose
`"name"` field may be absent. -/
structure ModelEntry where
  name : Option String
  deriving DecidableEq, Repr

/-- The decoded body of the `/api/tags` response. -/
inductive TagsBody where
  /-- Valid JSON whose top level is not an object
  (`.get` raises `AttributeError`). -/
  | nonObject
  /-- A JSON object; `modelsField` is the `"models"` key when present. -/
  | object (modelsField : Option (List ModelEntry))
  deriving DecidableEq, Repr

/-- What the transport delivers for `GET /api/tags`. -/
inductive TagsResponse where
  /-- `requests.RequestException`: connection failure, timeout, non-2xx
  status via `raise_for_status`, or an undecodable JSON body. -/
  | netError (msg : String)
  /-- A 2xx response whose body decoded to `body`. -/
  | okBody (body : TagsBody)
  deriving DecidableEq, Repr

/-- The list comprehension `[model["name"] for model in models]`:
evaluated left to right, raising `KeyError` at the first entry without a
`"name"` key. -/
def namesFrom : List ModelEntry → Except String (List String)
  | [] => .ok []
  | e :: rest =>
    match e.name with
    | some n => (namesFrom rest).map (fun ns => n :: ns)
    | none => .error "KeyError"

/-- `OllamaClient.list_models` (`ollama_client.py` lines 16-24).
`Except.error` models an exception propagating to the caller. -/
def list_models : TagsResponse → Except String (List String)
  | .netError _ => .ok []
  | .okBody TagsBody.nonObject => .error "AttributeError"
  | .okBody (TagsBody.object none) => .ok []
  | .okBody (TagsBody.object (some entries)) => namesFrom entries

/-! ### Inference client: `chat_stream` (`ollama_client.py` lines 26-51)

The generator wraps the request and the line loop in
`try: ... except requests.RequestException as e: yield f"Error: ..."`.
`json.loads` on a malformed line raises `json.JSONDecodeError` (a
`ValueError`), which that handler does not catch. -/

/-- One line delivered by `response.iter_lines()`. -/
inductive StreamLine where
  /-- A line that decodes as JSON; `content` is
  `chunk.get("message", {}).get("content")` coerced to a string
  (`""` when absent — falsy, so not yielded). -/
  | chunk (content : String)
  /-- A line that is not valid JSON: `json.loads` raises. -/
  | malformed
  deriving DecidableEq, Repr

/-- What the transport does for one `POST /api/chat` streaming call. -/
inductive Transport where
  /-- `requests.RequestException` raised by `requests.post` or
  `raise_for_status` before any line is read. -/
  | requestFail (msg : String)
  /-- The lines successfully delivered, then either clean end-of-stream
  (`none`) or a mid-stream `requests.RequestException` (`some msg`,
  e.g. connection reset or read timeout during `iter_lines`). -/
  | stream (lines : List StreamLine) (midFail : Option String)
  deriving DecidableEq, Repr

/-- The observable outcome of consuming the generator: the fragments it
yielded, and the exception (if any) that propagated to the caller. -/
structure StreamResult where
  fragments : List String
  raised : Option String
  deriving DecidableEq, Repr

/-- The `for line in response.iter_lines()` loop body: yields each
non-empty `message.content`, and raises `JSONDecodeError` at the first
malformed line (abandoning the rest of the stream). -/
def yieldLines : List StreamLine → List String × Option String
  | [] => ([], none)
  | StreamLine.malformed :: _ => ([], some "JSONDecodeError")
  | StreamLine.chunk c :: rest =>
    let r := yieldLines rest
    (if c = "" then r.1 else c :: r.1, r.2)

/-- `OllamaClient.chat_stream` (`ollama_client.py` lines 26-51), as the
function from transport behaviour to observed stream outcome. -/
def chat_stream : Transport → StreamResult
  | .requestFail msg => ⟨["Error: " ++ msg], none⟩
  | .stream lines midFail =>
    let r := yieldLines lines
    match r.2 with
    | some e => ⟨r.1, some e⟩
    | none =>
      ⟨r.1 ++ (match midFail with
               | some m => ["Error: " ++ m]
               | none => []),
       none⟩

/-- Transports in which every delivered line is valid JSON. -/
def noMalformed : Transport → Prop
  | .requestFail _ => True
  | .stream lines _ => ∀ l ∈ lines, l ≠ StreamLine.malformed

instance : DecidablePred noMalformed := by
  intro t
  cases t with
  | requestFail msg => exact isTrue trivial
  | stream lines midFail =>
    simp only [noMalformed]
    infer_instance

/-- The content fragments a transport's valid chunks carry (non-empty
`message.content` values, in order). -/
def pureFragments : Transport → List String
  | .requestFail _ => []
  | .stream lines _ =>
    lines.filterMap (fun l =>
      match l with
      | StreamLine.chunk c => if c = "" then none else some c
      | StreamLine.malformed => none)

/-- The synthetic error fragment a failing transport appends:
one final `"Error: <description>"` or nothing on clean termination. -/
def errorTail : Transport → List String
  | .requestFail m => ["Error: " ++ m]
  | .stream _ (some m) => ["Error: " ++ m]
  | .stream _ none => []

/-! ### Inference client: `chat` and `compare_models` (`ollama_client.py` lines 53-71, 138-156) -/

/-- What the transport does for one non-streaming `POST /api/chat`. -/
inductive ChatTransport where
  /-- 2xx response whose body carries `message.content`. -/
  | ok (content : String)
  /-- `requests.RequestException` (network failure, timeout, non-2xx):
  caught inside `chat`, which returns `"Error: <msg>"`. -/
  | requestFail (msg : String)
  /-- 2xx response whose decoded body lacks the expected keys:
  `response.json()["message"]["content"]` raises (`KeyError` /
  `TypeError`), not caught inside `chat`. -/
  | badBody (msg : String)
  deriving DecidableEq, Repr

/-- `OllamaClient.chat` (`ollama_client.py` lines 53-71).
`Except.error` models an exception propagating out of `chat`. -/
def chat : ChatTransport → Except String String
  | .ok c => .ok c
  | .requestFail m => .ok ("Error: " ++ m)
  | .badBody m => .error m

/-- The per-future branch of `compare_models` (lines 148-154):
`future.result()` either returns `chat`'s value or re-raises, and the
`except Exception` handler turns a raised exception into
`"Error: <msg>"`. -/
def resultOf (c : ChatTransport) : String :=
  match chat c with
  | .ok t => t
  | .error e => "Error: " ++ e

/-- `OllamaClient.compare_models` (`ollama_client.py` lines 138-156):
one `chat` call per model (concurrently; each future is keyed by its
model), collected into the `responses` mapping.  `behaviour` gives each
model's independent transport outcome. -/
def compare_models (behaviour : String → ChatTransport)
    (models : List String) : List (String × String) :=
  models.map (fun m => (m, resultOf (behaviour m)))

/-! ### Inference client: `chat_with_metrics` and `benchmark_model`
(`ollama_client.py` lines 73-112, 158-186) -/

/-- The decoded body of a successful non-streaming `/api/chat` response:
`message.content` plus the optional count/duration fields (durations in
nanoseconds). -/
structure ChatResponseData where
  content : String
  prompt_eval_count : Option Nat
  eval_count : Option Nat
  total_duration : Option Nat
  load_duration : Option Nat
  prompt_eval_duration : Option Nat
  eval_duration : Option Nat
  deriving DecidableEq, Repr

/-- The metrics dict built by `chat_with_metrics`
(`ollama_client.py` lines 97-107). -/
structure Metrics where
  response_time : ℚ
  model : String
  prompt_eval_count : Nat
  eval_count : Nat
  total_duration : ℚ
  load_duration : ℚ
  prompt_eval_duration : ℚ
  eval_duration : ℚ
  tokens_per_second : ℚ
  deriving DecidableEq, Repr

/-- The success-path metrics construction of
`OllamaClient.chat_with_metrics` (`ollama_client.py` lines 97-107):
each duration is `response_data.get(key, 0) / 1e9`, and
`tokens_per_second` is
`eval_count / (response_data.get("eval_duration", 1) / 1e9)` when
`response_data.get("eval_duration", 0) > 0`, else `0`. -/
def chat_with_metrics_metrics (response_time : ℚ) (model : String)
    (d : ChatResponseData) : Metrics :=
  ⟨response_time, model,
    d.prompt_eval_count.getD 0,
    d.eval_count.getD 0,
    ((d.total_duration.getD 0 : ℚ) / 1000000000),
    ((d.load_duration.getD 0 : ℚ) / 1000000000),
    ((d.prompt_eval_duration.getD 0 : ℚ) / 1000000000),
    ((d.eval_duration.getD 0 : ℚ) / 1000000000),
    (if 0 < d.eval_duration.getD 0 then
      (d.eval_count.getD 0 : ℚ) / ((d.eval_duration.getD 1 : ℚ) / 1000000000)
    else 0)⟩

/-- The outcome of one `chat_with_metrics` call as seen by
`benchmark_model`: either the metrics dict, or the
`{"error": str(e)}` marker from the exception handler. -/
inductive MetricsResult where
  | ok (m : Metrics)
  | err (msg : String)
  deriving DecidableEq, Repr

/-- The `metrics_list` accumulation of `benchmark_model`
(lines 164-171): keeps exactly the iterations whose metrics dict has no
`"error"` key. -/
def successes (runs : List MetricsResult) : List Metrics :=
  runs.filterMap (fun r =>
    match r with
    | .ok m => some m
    | .err _ => none)

/-- The value returned by `benchmark_model`: either the error marker or
the averaged metrics dict (`model`, `iterations`, and the four
`avg_*` fields, in source order). -/
inductive BenchResult where
  | errorResult (msg : String)
  | ok (model : String) (iterations : Nat)
      (avg_response_time avg_tokens_per_second avg_total_duration
        avg_eval_duration : ℚ)
  deriving DecidableEq, Repr

/-- `OllamaClient.benchmark_model` (`ollama_client.py` lines 158-186),
with the per-iteration `chat_with_metrics` outcomes supplied as `runs`
(one entry per loop iteration, so `runs.length` is the requested
iteration count). -/
def benchmark_model (model : String) (runs : List MetricsResult) :
    BenchResult :=
  let metrics_list := successes runs
  if metrics_list = [] then
    .errorResult "All benchmark attempts failed"
  else
    .ok model metrics_list.length
      ((metrics_list.map Metrics.response_time).sum / (metrics_list.length : ℚ))
      ((metrics_list.map Metrics.tokens_per_second).sum / (metrics_list.length : ℚ))
      ((metrics_list.map Metrics.total_duration).sum / (metrics_list.length : ℚ))
      ((metrics_list.map Metrics.eval_duration).sum / (metrics_list.length : ℚ))

/-! ### Inference client: `unload_model` and `keep_model_loaded`
(`ollama_client.py` lines 228-250)

Both post to `/api/generate` without calling `raise_for_status`, return
`True` after the call, and return `False` only from the
`except requests.RequestException` handler. -/

/-- The outcome of one `requests.post` call: either a completed HTTP
exchange with some status code (no exception — `requests` does not
raise on 4xx/5xx unless `raise_for_status` is called), or a raised
`requests.RequestException`. -/
inductive HttpOutcome where
  | completed (status : Nat)
  | raised (msg : String)
  deriving DecidableEq, Repr

/-- `OllamaClient.unload_model` (`ollama_client.py` lines 228-238). -/
def unload_model (o : HttpOutcome) : Bool :=
  match o with
  | .completed _ => true
  | .raised _ => false

/-- `OllamaClient.keep_model_loaded` (`ollama_client.py` lines 240-250);
`duration` is the `keep_alive` value posted in the body. -/
def keep_model_loaded (duration : Nat) (o : HttpOutcome) : Bool :=
  match o with
  | .completed _ => true
  | .raised _ => false

/-! ## Theorems -/

/-- C7: title derivation on the first message of a conversation — when
the conversation was empty, a content longer than 50 characters makes
the title the first 50 characters followed by `"..."`, and a content of
at most 50 characters becomes the title unchanged; appending to a
non-empty conversation never changes the title. -/
theorem add_message_title (conv : Conversation) (now : Nat)
    (msgId role content : String) :
    (conv.messages = [] →
      (add_message role content now msgId conv).title =
        (if 50 < content.length then content.take 50 ++ "..." else content)) ∧
    (conv.messages ≠ [] →
      (add_message role content now msgId conv).title = conv.title) := by
  constructor
  · intro h
    simp [add_message, h]
  · intro h
    simp [add_message]
    intro hc
    exact absurd hc h

set_option maxRecDepth 4000 in
/-- Witness for C7: an 80-character first message yields the first 50
characters plus the ellipsis marker; a later message leaves the title
unchanged. -/
theorem add_message_title_witness :
    ((⟨[], 0, 0, "New Chat"⟩ : Conversation).messages = []) ∧
    (add_message "user" (String.mk (List.replicate 80 'a')) 1 "m1"
        ⟨[], 0, 0, "New Chat"⟩).title =
      (String.mk (List.replicate 80 'a')).take 50 ++ "..." ∧
    ((⟨[⟨"user", "hi", 0, "m0"⟩], 0, 0, "hi"⟩ : Conversation).messages ≠ []) ∧
    (add_message "assistant" "later" 2 "m2"
        ⟨[⟨"user", "hi", 0, "m0"⟩], 0, 0, "hi"⟩).title = "hi" := by
  refine ⟨rfl, ?_, by decide, ?_⟩
  · have h := (add_message_title ⟨[], 0, 0, "New Chat"⟩ 1 "m1" "user"
      (String.mk (List.replicate 80 'a'))).1 rfl
    rw [h]
    decide
  · have h := (add_message_title ⟨[⟨"user", "hi", 0, "m0"⟩], 0, 0, "hi"⟩ 2
      "m2" "assistant" "later").2 (by decide)
    rw [h]

/-- C9: for every conversation with `n` messages and every `k ≤ n`,
truncating at index `k` leaves exactly `k` messages, and a subsequent
append of one assistant message yields exactly `k + 1` messages, the
kept prefix followed by the new message, with the old tail discarded. -/
theorem truncate_then_append (conv : Conversation) (k : Nat)
    (h : k ≤ conv.messages.length) (now : Nat) (msgId content : String) :
    (regenerate_truncate conv k).messages.length = k ∧
    (add_message "assistant" content now msgId
        (regenerate_truncate conv k)).messages =
      conv.messages.take k ++ [⟨"assistant", content, now, msgId⟩] ∧
    (add_message "assistant" content now msgId
        (regenerate_truncate conv k)).messages.length = k + 1 := by
  refine ⟨?_, ?_, ?_⟩
  · simp [regenerate_truncate, List.length_take, Nat.min_eq_left h]
  · simp [add_message, regenerate_truncate]
  · simp [add_message, regenerate_truncate, List.length_take,
      Nat.min_eq_left h]

/-- Witness for C9: truncating a 3-message conversation at index 2 and
appending a regenerated assistant message yields exactly 3 messages with
the old tail gone. -/
theorem truncate_then_append_witness :
    2 ≤ (⟨[⟨"user", "a", 0, "i1"⟩, ⟨"assistant", "b", 1, "i2"⟩,
          ⟨"user", "c", 2, "i3"⟩], 0, 2, "a"⟩ :
        Conversation).messages.length ∧
    (regenerate_truncate
        ⟨[⟨"user", "a", 0, "i1"⟩, ⟨"assistant", "b", 1, "i2"⟩,
          ⟨"user", "c", 2, "i3"⟩], 0, 2, "a"⟩ 2).messages.length = 2 ∧
    (add_message "assistant" "b2" 3 "i4"
        (regenerate_truncate
          ⟨[⟨"user", "a", 0, "i1"⟩, ⟨"assistant", "b", 1, "i2"⟩,
            ⟨"user", "c", 2, "i3"⟩], 0, 2, "a"⟩ 2)).messages =
      [⟨"user", "a", 0, "i1"⟩, ⟨"assistant", "b", 1, "i2"⟩,
        ⟨"assistant", "b2", 3, "i4"⟩] := by
  have h := truncate_then_append
    ⟨[⟨"user", "a", 0, "i1"⟩, ⟨"assistant", "b", 1, "i2"⟩,
      ⟨"user", "c", 2, "i3"⟩], 0, 2, "a"⟩ 2 (by decide) 3 "i4" "b2"
  exact ⟨by decide, h.1, by rw [h.2.1]; decide⟩

/-- C6 (code evaluation at the failing input): on a turn in compare
mode starting from an empty conversation with a blank system prompt and
user prompt "hi", the context sent to each compared model contains the
user message twice, while the single-model path sends it exactly once. -/
theorem compare_mode_duplicates_user_message :
    messages_for_model_compare ""
        (userTurnMessages ⟨[], 0, 0, "New Chat"⟩ 1 "id1" "hi") "hi" =
      [("user", "hi"), ("user", "hi")] ∧
    messages_for_model_single ""
        (userTurnMessages ⟨[], 0, 0, "New Chat"⟩ 1 "id1" "hi") =
      [("user", "hi")] := by
  constructor <;> decide

/-- C10: `unload_model` and `keep_model_loaded` return `true` whenever
the HTTP request completes, whatever the status code (including 4xx and
5xx), and return `false` exactly when the request raises a
network-level exception. -/
theorem unload_keep_status_insensitive :
    (∀ status : Nat, unload_model (HttpOutcome.completed status) = true) ∧
    (∀ msg : String, unload_model (HttpOutcome.raised msg) = false) ∧
    (∀ (d status : Nat),
      keep_model_loaded d (HttpOutcome.completed status) = true) ∧
    (∀ (d : Nat) (msg : String),
      keep_model_loaded d (HttpOutcome.raised msg) = false) := by
  exact ⟨fun _ => rfl, fun _ => rfl, fun _ _ => rfl, fun _ _ => rfl⟩

/-- C2: when all iterations fail, `benchmark_model` returns the
`"All benchmark attempts failed"` marker; otherwise it reports
`iterations` as the number of successful iterations and averages each
numeric metric over exactly those successful iterations. -/
theorem benchmark_model_averages (model : String)
    (runs : List MetricsResult) :
    (successes runs = [] →
      benchmark_model model runs =
        BenchResult.errorResult "All benchmark attempts failed") ∧
    (successes runs ≠ [] →
      benchmark_model model runs =
        BenchResult.ok model (successes runs).length
          (((successes runs).map Metrics.response_time).sum /
            ((successes runs).length : ℚ))
          (((successes runs).map Metrics.tokens_per_second).sum /
            ((successes runs).length : ℚ))
          (((successes runs).map Metrics.total_duration).sum /
            ((successes runs).length : ℚ))
          (((successes runs).map Metrics.eval_duration).sum /
            ((successes runs).length : ℚ))) := by
  constructor
  · intro h
    simp [benchmark_model, h]
  · intro h
    simp [benchmark_model, h]

/-- Witness for C2: three iterations of which one fails — the result
averages over the 2 successes and reports `iterations` as 2,
although 3 iterations were run. -/
theorem benchmark_model_witness :
    successes [MetricsResult.ok ⟨1, "m", 0, 0, 1, 0, 0, 1, 1⟩,
        MetricsResult.err "boom",
        MetricsResult.ok ⟨3, "m", 0, 0, 3, 0, 0, 3, 3⟩] ≠ [] ∧
    benchmark_model "m" [MetricsResult.ok ⟨1, "m", 0, 0, 1, 0, 0, 1, 1⟩,
        MetricsResult.err "boom",
        MetricsResult.ok ⟨3, "m", 0, 0, 3, 0, 0, 3, 3⟩] =
      BenchResult.ok "m" 2 2 2 2 2 ∧
    [MetricsResult.ok ⟨1, "m", 0, 0, 1, 0, 0, 1, 1⟩,
        MetricsResult.err "boom",
        MetricsResult.ok ⟨3, "m", 0, 0, 3, 0, 0, 3, 3⟩].length = 3 := by
  have h := (benchmark_model_averages "m"
    [MetricsResult.ok ⟨1, "m", 0, 0, 1, 0, 0, 1, 1⟩,
      MetricsResult.err "boom",
      MetricsResult.ok ⟨3, "m", 0, 0, 3, 0, 0, 3, 3⟩]).2 (by decide)
  refine ⟨by decide, ?_, by decide⟩
  rw [h]
  norm_num [successes, List.filterMap_cons]

/-- C8: `chat_with_metrics` converts each server-reported duration from
nanoseconds to seconds by dividing by 1e9, and derives
`tokens_per_second` as `eval_count` divided by the eval duration in
seconds, with `tokens_per_second = 0` whenever the reported eval
duration is 0 (or absent). -/
theorem chat_with_metrics_conversions (rt : ℚ) (model : String)
    (d : ChatResponseData) :
    (chat_with_metrics_metrics rt model d).total_duration =
      ((d.total_duration.getD 0 : ℚ) / 1000000000) ∧
    (chat_with_metrics_metrics rt model d).load_duration =
      ((d.load_duration.getD 0 : ℚ) / 1000000000) ∧
    (chat_with_metrics_metrics rt model d).prompt_eval_duration =
      ((d.prompt_eval_duration.getD 0 : ℚ) / 1000000000) ∧
    (chat_with_metrics_metrics rt model d).eval_duration =
      ((d.eval_duration.getD 0 : ℚ) / 1000000000) ∧
    (d.eval_duration.getD 0 = 0 →
      (chat_with_metrics_metrics rt model d).tokens_per_second = 0) ∧
    (0 < d.eval_duration.getD 0 →
      (chat_with_metrics_metrics rt model d).tokens_per_second =
        (d.eval_count.getD 0 : ℚ) /
          ((d.eval_duration.getD 0 : ℚ) / 1000000000)) := by
  refine ⟨rfl, rfl, rfl, rfl, ?_, ?_⟩
  · intro h
    simp [chat_with_metrics_metrics, h]
  · intro h
    cases hd : d.eval_duration with
    | none => rw [hd] at h; simp at h
    | some ed =>
      rw [hd] at h
      simp only [Option.getD_some] at h
      simp [chat_with_metrics_metrics, hd, h]

/-- Witness for C8: a response reporting `eval_count = 10` and
`eval_duration = 2e9` nanoseconds yields 2 seconds of eval time and
5 tokens per second. -/
theorem chat_with_metrics_witness :
    (0 : Nat) <
      (ChatResponseData.eval_duration
        ⟨"ok", none, some 10, none, none, none, some 2000000000⟩).getD 0 ∧
    (chat_with_metrics_metrics 1 "m"
        ⟨"ok", none, some 10, none, none, none,
          some 2000000000⟩).eval_duration = 2 ∧
    (chat_with_metrics_metrics 1 "m"
        ⟨"ok", none, some 10, none, none, none,
          some 2000000000⟩).tokens_per_second = 5 := by
  have hlt : (0 : Nat) <
      (ChatResponseData.eval_duration
        ⟨"ok", none, some 10, none, none, none, some 2000000000⟩).getD 0 := by
    decide
  have h := chat_with_metrics_conversions 1 "m"
    ⟨"ok", none, some 10, none, none, none, some 2000000000⟩
  refine ⟨hlt, ?_, ?_⟩
  · rw [h.2.2.2.1]
    norm_num
  · rw [h.2.2.2.2.2 hlt]
    norm_num

/-- C4 (counterexample): a completed response whose decoded body is
`{"models": [{}]}` — an entry without a `"name"` field — makes
`list_models` raise `KeyError` to the caller instead of returning an
empty sequence. -/
theorem list_models_missing_name_raises :
    list_models (TagsResponse.okBody
        (TagsBody.object (some [⟨none⟩]))) =
      Except.error "KeyError" := rfl

/-- C4 (amended): `list_models` returns the empty sequence on any
network-level failure or undecodable body, returns the name sequence
when every decoded entry carries a `"name"` field, but raises an
uncaught exception on a decoded body of unexpected shape (non-object
top level, or an entry missing `"name"`). -/
theorem list_models_amended :
    (∀ msg : String, list_models (TagsResponse.netError msg) =
      Except.ok []) ∧
    (list_models (TagsResponse.okBody (TagsBody.object none)) =
      Except.ok []) ∧
    (∀ names : List String,
      list_models (TagsResponse.okBody (TagsBody.object
          (some (names.map (fun n => ⟨some n⟩))))) =
        Except.ok names) ∧
    (list_models (TagsResponse.okBody TagsBody.nonObject) =
      Except.error "AttributeError") := by
  refine ⟨fun _ => rfl, rfl, ?_, rfl⟩
  intro names
  simp only [list_models]
  induction names with
  | nil => rfl
  | cons n rest ih =>
    simp [namesFrom, ih, Except.map]

/-- Helper for C3: with no malformed line, the line loop yields exactly
the non-empty contents and raises nothing. -/
theorem yieldLines_of_no_malformed (lines : List StreamLine)
    (h : ∀ l ∈ lines, l ≠ StreamLine.malformed) :
    yieldLines lines =
      (lines.filterMap (fun l =>
        match l with
        | StreamLine.chunk c => if c = "" then none else some c
        | StreamLine.malformed => none), none) := by
  induction lines with
  | nil => rfl
  | cons a rest ih =>
    cases a with
    | malformed => exact absurd rfl (h _ (List.mem_cons_self _ _))
    | chunk c =>
      have hrest : ∀ l ∈ rest, l ≠ StreamLine.malformed :=
        fun l hl => h l (List.mem_cons_of_mem _ hl)
      by_cases hc : c = ""
      · simp [yieldLines, List.filterMap_cons, hc, ih hrest]
      · simp [yieldLines, List.filterMap_cons, hc, ih hrest]

/-- C3 (counterexample): a stream delivering one malformed (non-JSON)
chunk makes `chat_stream` raise `json.JSONDecodeError` to the caller
instead of yielding an `"Error: ..."` fragment. -/
theorem chat_stream_malformed_chunk_raises :
    (chat_stream (Transport.stream [StreamLine.malformed] none)).raised =
      some "JSONDecodeError" := rfl

/-- C3 (amended): for every transport whose delivered lines all decode
as JSON, `chat_stream` propagates no exception, and the finite yielded
sequence is the chunks' non-empty contents followed by exactly one final
`"Error: <description>"` fragment when the transport failed (before the
stream started or mid-stream) and by nothing otherwise. -/
theorem chat_stream_no_malformed (t : Transport) (h : noMalformed t) :
    (chat_stream t).raised = none ∧
    (chat_stream t).fragments = pureFragments t ++ errorTail t := by
  cases t with
  | requestFail msg =>
    exact ⟨rfl, rfl⟩
  | stream lines midFail =>
    have hy := yieldLines_of_no_malformed lines h
    cases midFail with
    | none =>
      constructor
      · simp [chat_stream, hy]
      · simp [chat_stream, hy, pureFragments, errorTail]
    | some m =>
      constructor
      · simp [chat_stream, hy]
      · simp [chat_stream, hy, pureFragments, errorTail]

/-- Witness for C3 (amended): a transport that yields one chunk and
then suffers a mid-stream reset produces the fragment sequence
`["hi", "Error: reset"]` with no propagated exception. -/
theorem chat_stream_no_malformed_witness :
    noMalformed (Transport.stream [StreamLine.chunk "hi"] (some "reset")) ∧
    (chat_stream (Transport.stream [StreamLine.chunk "hi"]
        (some "reset"))).raised = none ∧
    (chat_stream (Transport.stream [StreamLine.chunk "hi"]
        (some "reset"))).fragments = ["hi", "Error: reset"] := by
  have h : noMalformed
      (Transport.stream [StreamLine.chunk "hi"] (some "reset")) := by
    intro l hl
    simp at hl
    simp [hl]
  have hc := chat_stream_no_malformed
    (Transport.stream [StreamLine.chunk "hi"] (some "reset")) h
  exact ⟨h, hc.1, by rw [hc.2]; decide⟩

/-- Helper for C5: looking up a key in the mapping built by pairing
each model with a function of itself returns that function's value at
the key. -/
theorem lookup_map_pair (models : List String) (f : String → String)
    (m : String) (hm : m ∈ models) :
    (models.map (fun x => (x, f x))).lookup m = some (f m) := by
  induction models with
  | nil => cases hm
  | cons a rest ih =>
    by_cases hma : a = m
    · subst hma
      simp [List.lookup]
    · have hmr : m ∈ rest := by
        rcases List.mem_cons.mp hm with h1 | h1
        · exact absurd h1.symm hma
        · exact h1
      have hba : (m == a) = false :=
        beq_eq_false_iff_ne.mpr (fun h1 => hma h1.symm)
      simp [List.lookup, hba, ih hmr]

/-- C5: `compare_models` isolates failures per model — for every
non-empty model list, the result has exactly one entry per requested
model in order; each model's entry is its own `chat` outcome (the
successful response text, or its `"Error: ..."` string when its call
fails); and a model's entry is unchanged under any change to the other
models' transport behaviour. -/
theorem compare_models_isolated (models : List String)
    (b1 b2 : String → ChatTransport) (m : String)
    (hne : models ≠ []) (hm : m ∈ models) (heq : b1 m = b2 m) :
    compare_models b1 models ≠ [] ∧
    (compare_models b1 models).map Prod.fst = models ∧
    (compare_models b1 models).lookup m = some (resultOf (b1 m)) ∧
    (compare_models b1 models).lookup m =
      (compare_models b2 models).lookup m := by
  have h1 := lookup_map_pair models (fun x => resultOf (b1 x)) m hm
  have h2 := lookup_map_pair models (fun x => resultOf (b2 x)) m hm
  refine ⟨?_, ?_, ?_, ?_⟩
  · simp [compare_models, hne]
  · show (models.map (fun x => (x, resultOf (b1 x)))).map Prod.fst = models
    rw [List.map_map]
    exact List.map_id models
  · exact h1
  · simp only [compare_models] at h1 h2 ⊢
    rw [h1, h2, heq]

/-- Witness for C5: with model "a" succeeding and model "b" failing
with a transport error, "b" maps to its own error string, and its entry
is the same even when "a"'s behaviour is changed. -/
theorem compare_models_isolated_witness :
    (["a", "b"] : List String) ≠ [] ∧
    "b" ∈ (["a", "b"] : List String) ∧
    (fun x => if x = "a" then ChatTransport.ok "hi"
      else ChatTransport.requestFail "boom") "b" =
      (fun x => if x = "a" then ChatTransport.ok "changed"
        else ChatTransport.requestFail "boom") "b" ∧
    (compare_models (fun x => if x = "a" then ChatTransport.ok "hi"
        else ChatTransport.requestFail "boom") ["a", "b"]).lookup "b" =
      some "Error: boom" ∧
    (compare_models (fun x => if x = "a" then ChatTransport.ok "hi"
        else ChatTransport.requestFail "boom") ["a", "b"]).lookup "b" =
      (compare_models (fun x => if x = "a" then ChatTransport.ok "changed"
        else ChatTransport.requestFail "boom") ["a", "b"]).lookup "b" := by
  have h := compare_models_isolated ["a", "b"]
    (fun x => if x = "a" then ChatTransport.ok "hi"
      else ChatTransport.requestFail "boom")
    (fun x => if x = "a" then ChatTransport.ok "changed"
      else ChatTransport.requestFail "boom")
    "b" (by decide) (by decide) (by decide)
  exact ⟨by decide, by decide, by decide, h.2.2.1, h.2.2.2⟩

/-- Helper for C1: replacing the value stored under a key (Python dict
assignment to a present key) does not change the key sequence. -/
theorem keysOf_replace (k : String) (v : Conversation)
    (l : List (String × Conversation)) :
    keysOf (l.map (fun p => if p.1 = k then (k, v) else p)) = keysOf l := by
  induction l with
  | nil => rfl
  | cons a rest ih =>
    by_cases h : a.1 = k
    · simp [keysOf, h] at ih ⊢
      exact ih
    · simp [keysOf, h] at ih ⊢
      exact ih

/-- Helper for C1: deleting a key commutes with taking the key
sequence. -/
theorem keysOf_filter (i : String) (l : List (String × Conversation)) :
    keysOf (l.filter (fun p => p.1 ≠ i)) =
      (keysOf l).filter (fun x => x ≠ i) := by
  induction l with
  | nil => rfl
  | cons a rest ih =>
    by_cases h : a.1 = i
    · simp [keysOf, List.filter_cons, h] at ih ⊢
      exact ih
    · simp [keysOf, List.filter_cons, h] at ih ⊢
      exact ih

/-- Helper for C1: in a duplicate-free key sequence of length at least
two, deleting one key leaves at least one key. -/
theorem filter_ne_nonempty (l : List String) (i : String)
    (hn : l.Nodup) (hl : 1 < l.length) :
    l.filter (fun x => x ≠ i) ≠ [] := by
  match l with
  | [] => simp at hl
  | [a] => simp at hl
  | a :: b :: t =>
    have hab : a ≠ b := by
      have h1 := (List.nodup_cons.mp hn).1
      exact fun h => h1 (h ▸ List.mem_cons_self b t)
    by_cases hai : a = i
    · have hbi : ¬b = i := fun hb => hab (by rw [hai, hb])
      simp [List.filter_cons, hai, hbi]
    · simp [List.filter_cons, hai]

/-- Helper for C1: the "New Conversation" handler preserves the store
invariant. -/
theorem storeInv_create (newId : String) (now : Nat) (s : ConvStore)
    (h : StoreInv s) : StoreInv (create_conversation newId now s) := by
  obtain ⟨hne, hact, hnodup⟩ := h
  unfold create_conversation dictInsert
  by_cases hk : newId ∈ keysOf s.conversations
  · simp only [if_pos hk]
    refine ⟨?_, ?_, ?_⟩
    · intro h0
      exact hne (List.map_eq_nil_iff.mp h0)
    · show newId ∈ keysOf (s.conversations.map
        (fun p => if p.1 = newId then (newId, emptyConv now) else p))
      rw [keysOf_replace]
      exact hk
    · show (keysOf (s.conversations.map
        (fun p => if p.1 = newId then (newId, emptyConv now) else p))).Nodup
      rw [keysOf_replace]
      exact hnodup
  · simp only [if_neg hk]
    refine ⟨by simp, ?_, ?_⟩
    · show newId ∈ keysOf (s.conversations ++ [(newId, emptyConv now)])
      simp [keysOf]
    · show (keysOf (s.conversations ++ [(newId, emptyConv now)])).Nodup
      simp [keysOf] at hk ⊢
      simp [List.nodup_append]
      exact ⟨hnodup, hk⟩

/-- Helper for C1: selecting a listed conversation preserves the store
invariant. -/
theorem storeInv_select (i : String) (s : ConvStore)
    (h : StoreInv s) : StoreInv (select_conversation i s) := by
  obtain ⟨hne, hact, hnodup⟩ := h
  unfold select_conversation
  by_cases hk : i ∈ keysOf s.conversations
  · simp only [if_pos hk]
    exact ⟨hne, hk, hnodup⟩
  · simp only [if_neg hk]
    exact ⟨hne, hact, hnodup⟩

/-- Helper for C1: the delete handler preserves the store invariant —
deleting the sole conversation is a no-op, and deleting the active
conversation reassigns the pointer to the first remaining key. -/
theorem storeInv_delete (i : String) (s : ConvStore)
    (h : StoreInv s) : StoreInv (delete_conversation i s) := by
  obtain ⟨hne, hact, hnodup⟩ := h
  unfold delete_conversation
  by_cases hg : 1 < s.conversations.length ∧ i ∈ keysOf s.conversations
  · simp only [if_pos hg]
    have hkeys : keysOf (s.conversations.filter (fun p => p.1 ≠ i)) =
        (keysOf s.conversations).filter (fun x => x ≠ i) :=
      keysOf_filter i s.conversations
    have hlen : (keysOf s.conversations).length =
        s.conversations.length := by
      simp [keysOf]
    have hfne : (keysOf s.conversations).filter (fun x => x ≠ i) ≠ [] :=
      filter_ne_nonempty _ i hnodup (by rw [hlen]; exact hg.1)
    have hcsne : s.conversations.filter (fun p => p.1 ≠ i) ≠ [] := by
      intro h0
      apply hfne
      rw [← hkeys, h0]
      rfl
    refine ⟨hcsne, ?_, ?_⟩
    · by_cases hia : i = s.active
      · simp only [if_pos hia]
        cases hcs2 : s.conversations.filter (fun p => p.1 ≠ i) with
        | nil => exact absurd hcs2 hcsne
        | cons c rest => simp [keysOf]
      · simp only [if_neg hia]
        show s.active ∈ keysOf (s.conversations.filter (fun p => p.1 ≠ i))
        rw [hkeys]
        apply List.mem_filter.mpr
        refine ⟨hact, ?_⟩
        simp only [ne_eq, decide_eq_true_eq]
        exact fun h1 => hia h1.symm
    · show (keysOf (s.conversations.filter (fun p => p.1 ≠ i))).Nodup
      rw [hkeys]
      exact hnodup.filter _
  · simp only [if_neg hg]
    exact ⟨hne, hact, hnodup⟩

/-- C1: starting from the initialised store, every sequence of
create/select/delete operations leaves the conversation mapping
non-empty with the active pointer naming an existing conversation —
deleting the sole remaining conversation is rejected, and deleting the
active conversation reassigns the pointer to a conversation that still
exists. -/
theorem conversation_store_invariant (now : Nat) (ops : List StoreOp) :
    StoreInv (runOps ops (init_conversation_state now)) := by
  have hinit : StoreInv (init_conversation_state now) := by
    refine ⟨by simp [init_conversation_state], ?_, ?_⟩
    · simp [init_conversation_state, keysOf]
    · simp [init_conversation_state, keysOf]
  have hrun : ∀ (l : List StoreOp) (s : ConvStore),
      StoreInv s → StoreInv (runOps l s) := by
    intro l
    induction l with
    | nil => exact fun s hs => hs
    | cons op rest ih =>
      intro s hs
      show StoreInv (runOps rest (applyOp op s))
      apply ih
      cases op with
      | create newId nowc => exact storeInv_create newId nowc s hs
      | select j => exact storeInv_select j s hs
      | delete j => exact storeInv_delete j s hs
  exact hrun ops _ hinit
